import Mathlib

/-!
Verification development for the PirateSurf scene editor.

The JavaScript sources are embedded shallowly:
* numbers are modelled as exact rationals (`ℚ`);
* `Math.round` (round half toward +∞) is `jround`;
* `BABYLON.Vector3` / `THREE.Vector3` become the structure `Vec3`;
* optional JSON fields become `Option`; JS truthiness of a string is
  modelled as "present and nonempty"; a JS statement sequence that can
  throw mid-way (e.g. `Vector3.FromArray(undefined)`) is modelled by
  cutting the sequence off at the throwing statement, as the surrounding
  `try`/`catch` does in the source;
* paths are kept as their `split('/')` segment lists, so the string
  splitting/joining of the source becomes list bookkeeping.
-/

namespace PirateSurf

/-- A 3-component vector (`BABYLON.Vector3` / `THREE.Vector3`), with exact
rational coordinates. -/
structure Vec3 where
  x : ℚ
  y : ℚ
  z : ℚ
  deriving DecidableEq, Repr

namespace Vec3

/-- `Vector3.add`. -/
def add (a b : Vec3) : Vec3 := ⟨a.x + b.x, a.y + b.y, a.z + b.z⟩

/-- `Vector3.negate`. -/
def neg (a : Vec3) : Vec3 := ⟨-a.x, -a.y, -a.z⟩

/-- `Vector3.scale`. -/
def scale (a : Vec3) (k : ℚ) : Vec3 := ⟨a.x * k, a.y * k, a.z * k⟩

/-- `BABYLON.Vector3.Minimize`: componentwise minimum. -/
def minimize (a b : Vec3) : Vec3 := ⟨min a.x b.x, min a.y b.y, min a.z b.z⟩

/-- `BABYLON.Vector3.Maximize`: componentwise maximum. -/
def maximize (a b : Vec3) : Vec3 := ⟨max a.x b.x, max a.y b.y, max a.z b.z⟩

/-- The cross product, used to express the action of a quaternion on a
vector. -/
def cross (a b : Vec3) : Vec3 :=
  ⟨a.y * b.z - a.z * b.y, a.z * b.x - a.x * b.z, a.x * b.y - a.y * b.x⟩

/-- Componentwise `≤` on vectors. -/
def cle (a b : Vec3) : Prop := a.x ≤ b.x ∧ a.y ≤ b.y ∧ a.z ≤ b.z

instance (a b : Vec3) : Decidable (cle a b) := by
  unfold cle; infer_instance

end Vec3

/-- JavaScript `Math.round`: nearest integer, ties rounded toward `+∞`
(`Math.round(x) = ⌊x + 1/2⌋`). -/
def jround (q : ℚ) : ℤ := (q + 1/2).floor

/-- Round every coordinate with `Math.round`, as the grid-snap steps do. -/
def roundVec (p : Vec3) : Vec3 :=
  ⟨(jround p.x : ℚ), (jround p.y : ℚ), (jround p.z : ℚ)⟩

/-- `snapToGrid` from the `AssetLevelEditor` (src/unnamed/part_000, lines
91–97): `new THREE.Vector3(Math.round(x), Math.round(y), Math.round(z))`. -/
def snapToGrid (position : Vec3) : Vec3 :=
  ⟨(jround position.x : ℚ), (jround position.y : ℚ), (jround position.z : ℚ)⟩

/-! ## Placement engine (`AssetBrowser.placeObject`, src/assetBrowser.js,
lines 883–1131 — the second, operative definition of the method) -/

/-- One axis of the pivot selection in `placeObject` (lines 1026–1028):
`normal.c > 0 ? min.c : (normal.c < 0 ? max.c : (min.c + max.c) / 2)`. -/
def pivotCoord (n mn mx : ℚ) : ℚ :=
  if 0 < n then mn else if n < 0 then mx else (mn + mx) / 2

/-- The pivot point built at line 1030:
`new BABYLON.Vector3(-pivotX, pivotY, pivotZ)` — note the negated x. -/
def pivotPoint (normal mn mx : Vec3) : Vec3 :=
  ⟨-(pivotCoord normal.x mn.x mx.x),
    pivotCoord normal.y mn.y mx.y,
    pivotCoord normal.z mn.z mx.z⟩

/-- `const offset = pivotPoint.negate();` (line 1038). -/
def placementOffset (normal mn mx : Vec3) : Vec3 :=
  (pivotPoint normal mn mx).neg

/-- `sideOffset = normal.scale(0.1)` when a pick result is present
(line 912), else the initial `(0,0,0)` (line 888). -/
def sideOffset (hasPick : Bool) (normal : Vec3) : Vec3 :=
  if hasPick then normal.scale (1/10) else ⟨0, 0, 0⟩

/-- The final position before grid snap (line 1041):
`position.add(offset).add(sideOffset)`. -/
def rawFinalPosition (position normal : Vec3) (hasPick : Bool) (mn mx : Vec3) : Vec3 :=
  (position.add (placementOffset normal mn mx)).add (sideOffset hasPick normal)

/-- The placed root node position (lines 1041–1051): the raw final
position with every coordinate snapped by `Math.round`. -/
def finalPosition (position normal : Vec3) (hasPick : Bool) (mn mx : Vec3) : Vec3 :=
  roundVec (rawFinalPosition position normal hasPick mn mx)

/-- Modelled from the spec (§4.2, not a second code path): the per-axis
pivot rule as the spec words it — "the bounding-box minimum if the normal
component on that axis is positive, the maximum if negative, else the
midpoint". Used to compare the source's offset against the claimed one. -/
def specPivotCoord (n mn mx : ℚ) : ℚ :=
  if 0 < n then mn else if n < 0 then mx else (mn + mx) / 2

/-- Modelled from the spec: the claimed pivot point, with no negation on
any axis. -/
def specPivot (normal mn mx : Vec3) : Vec3 :=
  ⟨specPivotCoord normal.x mn.x mx.x,
   specPivotCoord normal.y mn.y mx.y,
   specPivotCoord normal.z mn.z mx.z⟩

/-- `Assets/3D/${folderName}/${fileName}` (line 942). -/
def modelFilePath (folderName fileName : String) : String :=
  "Assets/3D/" ++ folderName ++ "/" ++ fileName

/-! ## Bounding boxes (`placeObject`, lines 999–1010): the union of all
leaf meshes' bounding boxes, folded from `leafMeshes[0]` with
`Vector3.Minimize` / `Vector3.Maximize`. -/

/-- A bounding box (`getBoundingInfo().minimum` / `.maximum`). -/
structure Box where
  mn : Vec3
  mx : Vec3
  deriving DecidableEq, Repr

/-- The loop of lines 999–1010: start from the box of `leafMeshes[0]` and
fold the remaining leaf boxes with componentwise `Minimize`/`Maximize`. -/
def unionBounds (b0 : Box) (rest : List Box) : Box :=
  rest.foldl (fun acc bi => ⟨acc.mn.minimize bi.mn, acc.mx.maximize bi.mx⟩) b0

/-! ## Selection, highlight and material restore
(`AssetBrowser.handleObjectSelection` / `clearObjectSelection`,
src/assetBrowser.js lines 506–634) -/

/-- A material reference: either a material present before selection, or
one of the per-mesh clones of the shared highlight material
(`this.highlightMaterial.clone("highlight_" + mesh.uniqueId)`). -/
inductive MaterialB where
  | orig (name : String)
  | highlightClone (uid : ℕ)
  deriving DecidableEq, Repr

/-- A child mesh of a root node: its `uniqueId` and its `material`
(`null` is `none`). -/
structure MeshB where
  uid : ℕ
  material : Option MaterialB
  deriving DecidableEq, Repr

/-- The `originalMaterials` map built during selection (lines 616–624):
for every mesh that has a material, record `(uniqueId, material)`. -/
def collectOriginals (meshes : List MeshB) : List (ℕ × MaterialB) :=
  meshes.filterMap fun m => m.material.map fun mat => (m.uid, mat)

/-- The highlight application to one mesh (lines 618–623): meshes with a
material receive a fresh highlight clone, meshes without are skipped. -/
def applyHighlight (m : MeshB) : MeshB :=
  match m.material with
  | some _ => { m with material := some (.highlightClone m.uid) }
  | none => m

/-- Restore of one mesh in `clearObjectSelection` (lines 511–517): only a
mesh that currently has a material and has a recorded original gets its
original back (the highlight clone is disposed). -/
def restoreMesh (originals : List (ℕ × MaterialB)) (m : MeshB) : MeshB :=
  match m.material, originals.lookup m.uid with
  | some _, some mat => { m with material := some mat }
  | _, _ => m

/-- The state of the browser relative to one object `X`: whether
`this.selectedObject === X`, the materials of `X.getChildMeshes()`, and
the `originalMaterials` record stored for `X`. -/
structure XState where
  selected : Bool
  meshes : List MeshB
  originals : List (ℕ × MaterialB)
  deriving DecidableEq, Repr

/-- The selection path of `handleObjectSelection` (lines 600–630): store
original materials, apply highlight clones, and keep the object selected
only if at least one material was replaced (else `selectedObject = null`). -/
def selectX (s : XState) : XState :=
  let originals := collectOriginals s.meshes
  let meshes := s.meshes.map applyHighlight
  if originals.isEmpty then ⟨false, meshes, []⟩ else ⟨true, meshes, originals⟩

/-- `clearObjectSelection` (lines 506–526): when an object is selected,
restore every recorded material, drop the record and deselect. -/
def clearX (s : XState) : XState :=
  if s.selected then ⟨false, s.meshes.map (restoreMesh s.originals), []⟩ else s

/-- `handleObjectSelection` when the pick resolves to the root node `X`
(lines 594–601): if `X` is already selected, deselect it
(`clearObjectSelection`), else select it. -/
def handleHitOnX (s : XState) : XState :=
  if s.selected then clearX s else selectX s

/-- Whether a material reference is one of the highlight clones. -/
def isHighlight : Option MaterialB → Bool
  | some (.highlightClone _) => true
  | _ => false

/-- A mesh state is highlight-free when no surface wears a highlight
clone. -/
def highlightFree (meshes : List MeshB) : Prop :=
  ∀ m ∈ meshes, isHighlight m.material = false

instance (meshes : List MeshB) : Decidable (highlightFree meshes) := by
  unfold highlightFree; infer_instance

/-! ## File arming (`selectFile` in both editors) -/

/-- File-arming state of the `AssetLevelEditor` (src/unnamed/part_000). -/
structure EditorFileState where
  selectedFile : Option String
  deriving DecidableEq, Repr

/-- `AssetLevelEditor.selectFile` (src/unnamed/part_000, lines 562–575):
re-selecting the currently armed file calls `deselectFile()` and returns
(a toggle); otherwise the file becomes armed. -/
def selectFileT (s : EditorFileState) (filePath : String) : EditorFileState :=
  if s.selectedFile = some filePath then { selectedFile := none }
  else { selectedFile := some filePath }

/-- Arming/selection state of the Babylon `AssetBrowser`. -/
structure BrowserState where
  selectedFile : Option String
  selectedObject : Option ℕ
  deriving DecidableEq, Repr

/-- `AssetBrowser.selectFile` (src/assetBrowser.js, lines 339–353): always
sets `this.selectedFile = filePath` (no toggle) and clears any object
selection via `clearObjectSelection()`. -/
def selectFileB (s : BrowserState) (filePath : String) : BrowserState :=
  { s with selectedFile := some filePath, selectedObject := none }

/-- `AssetBrowser.clearSelection` (src/assetBrowser.js, lines 494–498):
drops the armed file and clears the object selection. This is what runs
on a right click in the Babylon pointer observer (lines 474–476). -/
def clearSelectionB (s : BrowserState) : BrowserState :=
  { s with selectedFile := none, selectedObject := none }

/-! ## Right-click handling (`AssetLevelEditor.onMouseClick`,
src/unnamed/part_000, lines 128–221; right-click branch 192–220) -/

/-- A picked scene object, flattened: its own id and name, plus the chain
of ancestors up to (excluding) the scene root, as `(id, name)` pairs. The
source's `while (object.parent && object.parent.type !== 'Scene')` walk
corresponds to taking the last ancestor. -/
structure PickedObj where
  oid : ℕ
  name : String
  ancestors : List (ℕ × String)
  deriving DecidableEq, Repr

/-- The id of the top-most parent reached by the walk in `selectObject`
(lines 363–366). -/
def rootIdOf (o : PickedObj) : ℕ :=
  ((o.ancestors.getLast?).map Prod.fst).getD o.oid

/-- Interaction state of the `AssetLevelEditor`. -/
structure EdState where
  selectedFile : Option String
  selectedObject : Option ℕ
  deriving DecidableEq, Repr

/-- `AssetLevelEditor.selectObject` (src/unnamed/part_000, lines 350–463),
projected to the selection fields: helper objects named `ground`, `grid`
or `axes` deselect instead; otherwise the walk's root becomes the
selection (a no-op if it already is). -/
def selectObjectT (s : EdState) (o : PickedObj) : EdState :=
  if o.name = "ground" ∨ o.name = "grid" ∨ o.name = "axes" then
    { s with selectedObject := none }
  else if s.selectedObject = some (rootIdOf o) then s
  else { s with selectedObject := some (rootIdOf o) }

/-- The right-click branch of `AssetLevelEditor.onMouseClick` (lines
192–220): remember whether anything was armed or selected, deselect the
file and the object, then — if something had been armed or selected and
the ray hit an object — select that object. -/
def onRightClickT (s : EdState) (intersects : List PickedObj) : EdState :=
  let hadSelection := s.selectedObject.isSome || s.selectedFile.isSome
  let s1 : EdState := { selectedFile := none, selectedObject := none }
  match intersects with
  | o :: _ => if hadSelection then selectObjectT s1 o else s1
  | [] => s1

/-! ## Scene serialization of the Babylon `AssetBrowser`
(`saveScene`, src/assetBrowser.js lines 1186–1218; `loadScene`,
lines 1223–1291) -/

/-- A placed model as tracked by `trackModel` (lines 1310–1316): the load
path (as `split('/')` segments) and the root node's transform. -/
structure PlacedModel where
  path : List String
  position : Vec3
  rotation : Vec3
  scaling : Vec3
  deriving DecidableEq, Repr

/-- The path string stored by `saveScene` (lines 1190–1195):
`pathParts.pop()` yields the file name, the next `pop()` the folder
(`|| 'default'`); a missing pop interpolates as the string "undefined". -/
def savedPathOf (p : List String) : List String :=
  [((p.dropLast.getLast?).getD "default"), ((p.getLast?).getD "undefined")]

/-- One entry of a saved scene document as `loadScene` reads it: the
stored `folder/filename` path (as segments), the `position` array, the
optional `rotation` array, an optional `rotationQuaternion` (present in
quaternion-bearing documents — this loader never reads it), and the
optional `scaling` array. -/
structure SavedModelB where
  path : List String
  position : Vec3
  rotation : Option Vec3
  rotationQuaternion : Option (ℚ × ℚ × ℚ × ℚ)
  scaling : Option Vec3
  deriving DecidableEq, Repr

/-- One entry written by `saveScene` (lines 1188–1199): the shortened
path and the `position`/`rotation`/`scaling` arrays (Euler angles — this
serializer never writes a quaternion). -/
def serializeEntryB (m : PlacedModel) : SavedModelB :=
  { path := savedPathOf m.path
    position := m.position
    rotation := some m.rotation
    rotationQuaternion := none
    scaling := some m.scaling }

/-- `saveScene` (lines 1186–1206): every tracked model is written out. -/
def serializeB (reg : List PlacedModel) : List SavedModelB :=
  reg.map serializeEntryB

/-- The per-entry transform overwrite of `loadScene` (lines 1268–1275),
applied to the last tracked model: `position` is assigned verbatim; then
`rotation = Vector3.FromArray(modelData.rotation)` — if the document has
no rotation array (e.g. a quaternion-bearing entry) this throws and the
per-model `catch` skips the rest, leaving rotation and scaling at their
placement defaults; `scaling` likewise. -/
def applySavedTransforms (entry : SavedModelB) (m : PlacedModel) : PlacedModel :=
  let m1 := { m with position := entry.position }
  match entry.rotation with
  | none => m1
  | some r =>
      let m2 := { m1 with rotation := r }
      match entry.scaling with
      | none => m2
      | some sc => { m2 with scaling := sc }

/-- Replace the last element of a list (`placedModels[placedModels.length - 1]`). -/
def applyToLast (f : PlacedModel → PlacedModel) (l : List PlacedModel) : List PlacedModel :=
  l.dropLast ++ ((l.getLast?).elim [] fun a => [f a])

/-- One iteration of the `for (const modelData of sceneData.models)` loop
in `loadScene` (lines 1240–1280): split the saved path (skipping the
entry when file or folder is missing/empty), run `placeObject` at the
saved position with the mock up-normal pick — which, on a successful
asset load, appends a tracked model at the grid-snapped placement
position with default rotation and unit scaling, and on a failed load
tracks nothing (the fallback box of `placeObject` is not tracked) — then
overwrite the transform of the last tracked model with the saved one.
`loads` tells which full asset paths resolve, `bounds` gives the loaded
model's merged bounding box. -/
def loadStepB (loads : List String → Bool) (bounds : List String → Box)
    (registry : List PlacedModel) (entry : SavedModelB) : List PlacedModel :=
  match entry.path.getLast?, entry.path.dropLast.getLast? with
  | some f, some g =>
      if f = "" ∨ g = "" then registry
      else
        let fullPath := ["Assets", "3D", g, f]
        let reg1 :=
          if loads fullPath then
            registry ++
              [{ path := fullPath
                 position := finalPosition entry.position ⟨0, 1, 0⟩ true
                   (bounds fullPath).mn (bounds fullPath).mx
                 rotation := ⟨0, 0, 0⟩
                 scaling := ⟨1, 1, 1⟩ }]
          else registry
        applyToLast (applySavedTransforms entry) reg1
  | _, _ => registry

/-- `loadScene` (lines 1223–1291): clear the scene, then run the load
loop over every document entry. -/
def loadSceneB (loads : List String → Bool) (bounds : List String → Box)
    (doc : List SavedModelB) : List PlacedModel :=
  doc.foldl (loadStepB loads bounds) []

/-- The action of a quaternion `(x, y, z, w)` on a vector,
`v + 2·qv × (qv × v + w·v)` — the standard (computable) form of
`q v q⁻¹` for unit quaternions. Used to compare the orientation a
document encodes with the orientation a reconstructed instance carries. -/
def quatRotate (q : ℚ × ℚ × ℚ × ℚ) (v : Vec3) : Vec3 :=
  let qv : Vec3 := ⟨q.1, q.2.1, q.2.2.1⟩
  let w := q.2.2.2
  v.add ((qv.cross ((qv.cross v).add (v.scale w))).scale 2)

/-- A concrete quaternion-bearing scene document: one entry for
"Castle/wall.glb" at (1,2,3), orientation given only as
`rotationQuaternion = (0,0,1,0)` (a half-turn about z), unit scaling. -/
def quatDoc : List SavedModelB :=
  [{ path := ["Castle", "wall.glb"]
     position := ⟨1, 2, 3⟩
     rotation := none
     rotationQuaternion := some (0, 0, 1, 0)
     scaling := some ⟨1, 1, 1⟩ }]

/-! ## Batch scene loading of the `AssetLevelEditor`
(`loadScene`, src/unnamed/part_000 lines 1477–1680) -/

/-- A JSON vector field: an `{x,y,z}` object literal, a `[x,y,z]` array,
or absent. -/
inductive JField where
  | obj (v : Vec3)
  | arr (v : Vec3)
  | missing
  deriving DecidableEq, Repr

/-- JS truthiness of a JSON vector field (arrays and objects are truthy,
an absent field is `undefined`). -/
def jfTruthy : JField → Bool
  | .missing => false
  | _ => true

/-- Reading `.x`/`.y`/`.z` (each `|| 0`) off a JSON field: object
literals yield their components, anything else yields `undefined`,
hence 0. -/
def objAccess : JField → Vec3
  | .obj v => v
  | _ => ⟨0, 0, 0⟩

/-- One `objects[]` entry of an `AssetLevelEditor` scene document: the
new-format `path`, the legacy `file`, the transform fields and the
optional `properties` mapping. -/
structure ObjDataT where
  path : Option String
  file : Option String
  position : JField
  rotation : JField
  scale : JField
  properties : Option (List (String × String))
  deriving DecidableEq, Repr

/-- An `AssetLevelEditor` scene document. -/
structure SceneDocT where
  version : Option String
  objects : List ObjDataT
  deriving DecidableEq, Repr

/-- `String.prototype.startsWith`, modelled on the character lists so it
evaluates by reduction. -/
def strStartsWith (s pre : String) : Bool :=
  pre.data.isPrefixOf s.data

/-- `const isNewFormat = sceneData.version && sceneData.version.startsWith('2.')`
(line 1490). -/
def isNewFormatT (doc : SceneDocT) : Bool :=
  match doc.version with
  | some v => strStartsWith v "2."
  | none => false

/-- The position applied to a loaded model (lines 1567–1576), also the
position used for the fallback placeholder (lines 1634–1642): the object
literal's components in the new format, the array in the legacy format,
else the default `(0,0,0)`. -/
def appliedPositionT (isNew : Bool) (o : ObjDataT) : Vec3 :=
  if isNew ∧ jfTruthy o.position = true then objAccess o.position
  else
    match o.position with
    | .arr v => v
    | _ => ⟨0, 0, 0⟩

/-- The rotation applied to a loaded model (lines 1578–1587): same shape
as the position handling; this loader reads only Euler angles. -/
def appliedRotationT (isNew : Bool) (o : ObjDataT) : Vec3 :=
  if isNew ∧ jfTruthy o.rotation = true then objAccess o.rotation
  else
    match o.rotation with
    | .arr v => v
    | _ => ⟨0, 0, 0⟩

/-- JS `x || 1` on a number. -/
def scaleOr1 (q : ℚ) : ℚ := if q = 0 then 1 else q

/-- The scale applied to a loaded model (lines 1589–1602): array
verbatim, object literal with `|| 1` defaults, `(1,1,1)` when absent. -/
def appliedScaleT (o : ObjDataT) : Vec3 :=
  match o.scale with
  | .arr v => v
  | .obj v => ⟨scaleOr1 v.x, scaleOr1 v.y, scaleOr1 v.z⟩
  | .missing => ⟨1, 1, 1⟩

/-- The properties stored on a loaded model (lines 1610–1618):
`userData.properties` is only ever set for new-format entries that carry
a `properties` field; legacy entries leave it `undefined`. -/
def appliedPropsT (isNew : Bool) (o : ObjDataT) : Option (List (String × String)) :=
  if isNew then o.properties else none

/-- A reconstructed scene object: the transform, the stored properties,
the source file recorded in `userData.originalFile`, and whether it is
the fallback demo cube. -/
structure LoadedT where
  position : Vec3
  rotation : Vec3
  scale : Vec3
  properties : Option (List (String × String))
  sourceFile : Option String
  isPlaceholder : Bool
  deriving DecidableEq, Repr

/-- `userData.properties || {}` — the effective property mapping of an
object (`loadObjectProperties`, line 1201; `saveScene`, line 1446). -/
def effectiveProps (m : LoadedT) : List (String × String) :=
  m.properties.getD []

/-- One load promise of `loadScene` (lines 1553–1648): resolve the model
path (`path` in the new format, `file` in the legacy one; a missing or
empty path resolves `null`), then either construct the model with the
saved transform and properties, or — when the asset fails to load — a
fallback demo cube at the entry's saved position
(`createDemoCubeAt(position, false)`). -/
def loadEntryT (loads : String → Bool) (isNew : Bool) (o : ObjDataT) : Option LoadedT :=
  let modelPath := if isNew then o.path else o.file
  match modelPath with
  | none => none
  | some p =>
      if p = "" then none
      else if loads p then
        some { position := appliedPositionT isNew o
               rotation := appliedRotationT isNew o
               scale := appliedScaleT o
               properties := appliedPropsT isNew o
               sourceFile := some p
               isPlaceholder := false }
      else
        some { position := appliedPositionT isNew o
               rotation := ⟨0, 0, 0⟩
               scale := ⟨1, 1, 1⟩
               properties := none
               sourceFile := none
               isPlaceholder := true }

/-- `loadScene` (lines 1477–1680): every entry is loaded by its own
promise (`objects.map(...)` then `Promise.all`), so the result is the
independent per-entry map. -/
def loadSceneT (loads : String → Bool) (doc : SceneDocT) : List (Option LoadedT) :=
  doc.objects.map (loadEntryT loads (isNewFormatT doc))

/-- The count the code reports after the batch:
`loadedModels.filter(m => m !== null).length` (line 1658). -/
def reportedLoadedCountT (loads : String → Bool) (doc : SceneDocT) : ℕ :=
  ((loadSceneT loads doc).filter Option.isSome).length

/-- The 3-object document of the concurrent-load-failure scenario:
version 2.2, three entries whose second path does not resolve. -/
def failDoc : SceneDocT :=
  { version := some "2.2"
    objects :=
      [ { path := some "Assets/3D/Pirate/barrel.glb", file := none
          position := .obj ⟨1, 0, 1⟩, rotation := .obj ⟨0, 0, 0⟩
          scale := .obj ⟨1, 1, 1⟩, properties := none }
      , { path := some "Assets/3D/Castle/missing.glb", file := none
          position := .obj ⟨4, 5, 6⟩, rotation := .obj ⟨0, 0, 0⟩
          scale := .obj ⟨1, 1, 1⟩, properties := none }
      , { path := some "Assets/3D/Pirate/chest.glb", file := none
          position := .obj ⟨2, 0, 2⟩, rotation := .obj ⟨0, 0, 0⟩
          scale := .obj ⟨1, 1, 1⟩, properties := none } ] }

/-- The loader oracle of the scenario: every path resolves except the
second entry's. -/
def failDocLoads (p : String) : Bool :=
  !(p == "Assets/3D/Castle/missing.glb")

/-- The scenario's expected first loaded object: barrel at its saved
position, default rotation and unit scale, no placeholder. -/
def failR1 : LoadedT :=
  { position := ⟨1, 0, 1⟩, rotation := ⟨0, 0, 0⟩, scale := ⟨1, 1, 1⟩
    properties := none, sourceFile := some "Assets/3D/Pirate/barrel.glb"
    isPlaceholder := false }

/-- The scenario's expected second result: the fallback demo cube at the
entry's saved position (4,5,6). -/
def failR2 : LoadedT :=
  { position := ⟨4, 5, 6⟩, rotation := ⟨0, 0, 0⟩, scale := ⟨1, 1, 1⟩
    properties := none, sourceFile := none, isPlaceholder := true }

/-- The scenario's expected third loaded object. -/
def failR3 : LoadedT :=
  { position := ⟨2, 0, 2⟩, rotation := ⟨0, 0, 0⟩, scale := ⟨1, 1, 1⟩
    properties := none, sourceFile := some "Assets/3D/Pirate/chest.glb"
    isPlaceholder := false }

/-- The one-object legacy document of the version-compatibility scenario:
version "1.0", array-form position [1,2,3], no properties. -/
def legacyEntry : ObjDataT :=
  { path := none
    file := some "Assets/3D/Castle/wall.glb"
    position := .arr ⟨1, 2, 3⟩
    rotation := .missing
    scale := .missing
    properties := none }

/-- The instance the legacy scenario is expected to produce: position
exactly (1,2,3), default rotation/scale, and no stored properties. -/
def legacyExpected : LoadedT :=
  { position := ⟨1, 2, 3⟩, rotation := ⟨0, 0, 0⟩, scale := ⟨1, 1, 1⟩
    properties := none, sourceFile := some "Assets/3D/Castle/wall.glb"
    isPlaceholder := false }

end PirateSurf

open PirateSurf

/-! ## Helper lemmas -/

namespace PirateSurf

/-- `jround` is the floor of `q + 1/2`. -/
theorem jround_eq_floor (q : ℚ) : jround q = ⌊q + 1/2⌋ := by
  rw [jround, Rat.floor_def, Rat.floor_def']

/-- In a mesh list with distinct `uniqueId`s, the recorded original of a
mesh that had a material is found again by `lookup`. -/
theorem lookup_collectOriginals {meshes : List MeshB}
    (hnodup : (meshes.map MeshB.uid).Nodup) {m : MeshB} (hm : m ∈ meshes)
    {mat : MaterialB} (hmat : m.material = some mat) :
    (collectOriginals meshes).lookup m.uid = some mat := by
  induction meshes with
  | nil => cases hm
  | cons m0 rest ih =>
      simp only [List.map_cons, List.nodup_cons] at hnodup
      rcases List.mem_cons.mp hm with rfl | hmem
      · simp [collectOriginals, hmat, List.lookup]
      · have hne : (m.uid == m0.uid) = false := by
          refine beq_eq_false_iff_ne.mpr fun he => hnodup.1 ?_
          exact he ▸ List.mem_map_of_mem MeshB.uid hmem
        have htail := ih hnodup.2 hmem
        cases h0 : m0.material with
        | none => simpa [collectOriginals, h0] using htail
        | some mat0 =>
            have hrw : collectOriginals (m0 :: rest) =
                (m0.uid, mat0) :: collectOriginals rest := by
              simp [collectOriginals, h0]
            rw [hrw]
            simpa [List.lookup, hne] using htail

/-- Restoring after highlighting gives every mesh its pre-selection
material back, mesh by mesh. -/
theorem restore_applyHighlight {meshes : List MeshB}
    (hnodup : (meshes.map MeshB.uid).Nodup) {m : MeshB} (hm : m ∈ meshes) :
    restoreMesh (collectOriginals meshes) (applyHighlight m) = m := by
  cases h : m.material with
  | none => simp [applyHighlight, restoreMesh, h]
  | some mat =>
      have hl := lookup_collectOriginals hnodup hm h
      simp only [applyHighlight, h, restoreMesh, hl]
      cases m
      simp_all

/-- Componentwise `≤` is reflexive. -/
theorem Vec3.cle_refl (a : Vec3) : a.cle a :=
  ⟨le_refl _, le_refl _, le_refl _⟩

/-- Componentwise `≤` is transitive. -/
theorem Vec3.cle_trans {a b c : Vec3} (h1 : a.cle b) (h2 : b.cle c) : a.cle c :=
  ⟨le_trans h1.1 h2.1, le_trans h1.2.1 h2.2.1, le_trans h1.2.2 h2.2.2⟩

/-- `Minimize` is below its first argument. -/
theorem Vec3.minimize_cle_left (a b : Vec3) : (a.minimize b).cle a :=
  ⟨min_le_left _ _, min_le_left _ _, min_le_left _ _⟩

/-- `Minimize` is below its second argument. -/
theorem Vec3.minimize_cle_right (a b : Vec3) : (a.minimize b).cle b :=
  ⟨min_le_right _ _, min_le_right _ _, min_le_right _ _⟩

/-- `Maximize` is above its first argument. -/
theorem Vec3.cle_maximize_left (a b : Vec3) : a.cle (a.maximize b) :=
  ⟨le_max_left _ _, le_max_left _ _, le_max_left _ _⟩

/-- `Maximize` is above its second argument. -/
theorem Vec3.cle_maximize_right (a b : Vec3) : b.cle (a.maximize b) :=
  ⟨le_max_right _ _, le_max_right _ _, le_max_right _ _⟩

/-- The folded union's minimum is below every participating box's
minimum. -/
theorem unionBounds_mn_cle (b0 : Box) (rest : List Box) :
    ∀ b ∈ b0 :: rest, (unionBounds b0 rest).mn.cle b.mn := by
  induction rest generalizing b0 with
  | nil =>
      intro b hb
      rcases List.mem_singleton.mp hb with rfl
      exact Vec3.cle_refl _
  | cons b1 bs ih =>
      intro b hb
      have hacc := ih ⟨b0.mn.minimize b1.mn, b0.mx.maximize b1.mx⟩
      rcases List.mem_cons.mp hb with rfl | hb2
      · exact Vec3.cle_trans (hacc _ (List.mem_cons_self _ _))
          (Vec3.minimize_cle_left _ _)
      · rcases List.mem_cons.mp hb2 with rfl | hb3
        · exact Vec3.cle_trans (hacc _ (List.mem_cons_self _ _))
            (Vec3.minimize_cle_right _ _)
        · exact hacc _ (List.mem_cons_of_mem _ hb3)

/-- The folded union's maximum is above every participating box's
maximum. -/
theorem cle_unionBounds_mx (b0 : Box) (rest : List Box) :
    ∀ b ∈ b0 :: rest, b.mx.cle (unionBounds b0 rest).mx := by
  induction rest generalizing b0 with
  | nil =>
      intro b hb
      rcases List.mem_singleton.mp hb with rfl
      exact Vec3.cle_refl _
  | cons b1 bs ih =>
      intro b hb
      have hacc := ih ⟨b0.mn.minimize b1.mn, b0.mx.maximize b1.mx⟩
      rcases List.mem_cons.mp hb with rfl | hb2
      · exact Vec3.cle_trans (Vec3.cle_maximize_left _ _)
          (hacc _ (List.mem_cons_self _ _))
      · rcases List.mem_cons.mp hb2 with rfl | hb3
        · exact Vec3.cle_trans (Vec3.cle_maximize_right _ _)
            (hacc _ (List.mem_cons_self _ _))
        · exact hacc _ (List.mem_cons_of_mem _ hb3)

/-- Replacing the last element of `xs ++ [y]` touches only `y`. -/
theorem applyToLast_concat (f : PlacedModel → PlacedModel)
    (xs : List PlacedModel) (y : PlacedModel) :
    applyToLast f (xs ++ [y]) = xs ++ [f y] := by
  simp [applyToLast, List.dropLast_concat, List.getLast?_concat]

/-- One load-loop step on the serialization of a canonical, loadable
tracked model appends exactly that model back. -/
theorem loadStepB_serializeEntryB (loads : List String → Bool)
    (bounds : List String → Box) (registry : List PlacedModel)
    (m : PlacedModel) (g f : String) (hg : g ≠ "") (hf : f ≠ "")
    (hpath : m.path = ["Assets", "3D", g, f]) (hload : loads m.path = true) :
    loadStepB loads bounds registry (serializeEntryB m) = registry ++ [m] := by
  have hsaved : (serializeEntryB m).path = [g, f] := by
    simp [serializeEntryB, savedPathOf, hpath]
  have happly :
      applySavedTransforms (serializeEntryB m)
        { path := m.path
          position := finalPosition (serializeEntryB m).position ⟨0, 1, 0⟩ true
            (bounds m.path).mn (bounds m.path).mx
          rotation := ⟨0, 0, 0⟩
          scaling := ⟨1, 1, 1⟩ } = m := by
    cases m
    simp [applySavedTransforms, serializeEntryB]
  unfold loadStepB
  rw [hsaved]
  simp only [List.getLast?, List.dropLast, List.getLast]
  rw [if_neg (by simp [hf, hg])]
  rw [← hpath, hload]
  simp only [if_true]
  rw [hpath, applyToLast_concat, ← hpath, happly]

/-- Folding the load loop over a serialized registry of canonical,
loadable models replays the registry. -/
theorem foldl_loadStepB_serializeB (loads : List String → Bool)
    (bounds : List String → Box) (reg : List PlacedModel)
    (hcanon : ∀ m ∈ reg, ∃ g f, g ≠ "" ∧ f ≠ "" ∧ m.path = ["Assets", "3D", g, f])
    (hload : ∀ m ∈ reg, loads m.path = true) :
    ∀ pre, (serializeB reg).foldl (loadStepB loads bounds) pre = pre ++ reg := by
  induction reg with
  | nil => intro pre; simp [serializeB]
  | cons m ms ih =>
      intro pre
      obtain ⟨g, f, hg, hf, hpath⟩ := hcanon m (List.mem_cons_self _ _)
      have hstep := loadStepB_serializeEntryB loads bounds pre m g f hg hf hpath
        (hload m (List.mem_cons_self _ _))
      have htail := ih (fun m hm => hcanon m (List.mem_cons_of_mem _ hm))
        (fun m hm => hload m (List.mem_cons_of_mem _ hm)) (pre ++ [m])
      simp only [serializeB, List.map_cons, List.foldl_cons, hstep]
      simpa [serializeB] using htail

end PirateSurf

/-! ## Claim theorems -/

/-- C1, counterexample. The claim states that the placement offset equals
the negation of the per-axis min/max/midpoint pivot on every axis.  For
normal (1,0,0) and bounding box [1,5]×[2,6]×[3,7] the pivot is (1,4,5),
so the claimed offset is (-1,-4,-5); the code's offset is (1,-4,-5),
because line 1030 negates the x coordinate when building the pivot point. -/
theorem pivot_offset_neg_claim_false :
    placementOffset ⟨1, 0, 0⟩ ⟨1, 2, 3⟩ ⟨5, 6, 7⟩ ≠
      (specPivot ⟨1, 0, 0⟩ ⟨1, 2, 3⟩ ⟨5, 6, 7⟩).neg := by
  decide

/-- C1, amended. The per-axis pivot coordinates do follow the claimed
rule (minimum if the normal component is positive, maximum if negative,
midpoint if zero; in particular normal.y > 0 gives pivot.y = min.y), but
the placement offset negates the pivot only on the y and z axes: on x it
equals the pivot coordinate itself, since the code negates pivot.x while
building the pivot point and then negates the whole point. -/
theorem pivot_offset_amended (normal mn mx : Vec3) :
    placementOffset normal mn mx =
      ⟨specPivotCoord normal.x mn.x mx.x,
       -(specPivotCoord normal.y mn.y mx.y),
       -(specPivotCoord normal.z mn.z mx.z)⟩ ∧
    (0 < normal.y → (pivotPoint normal mn mx).y = mn.y) ∧
    (normal.y < 0 → (pivotPoint normal mn mx).y = mx.y) ∧
    (normal.y = 0 → (pivotPoint normal mn mx).y = (mn.y + mx.y) / 2) := by
  refine ⟨?_, ?_, ?_, ?_⟩
  · simp [placementOffset, pivotPoint, Vec3.neg, pivotCoord, specPivotCoord]
  · intro h
    simp [pivotPoint, pivotCoord, h]
  · intro h
    have h0 : ¬ (0 : ℚ) < normal.y := by linarith
    simp [pivotPoint, pivotCoord, h, h0]
  · intro h
    simp [pivotPoint, pivotCoord, h]

/-- C1, witness for the amended theorem at normal (0,1,0) and the unit
wall bounding box. -/
theorem pivot_offset_amended_witness :
    placementOffset ⟨0, 1, 0⟩ ⟨-(1/2), 0, -(1/2)⟩ ⟨1/2, 1, 1/2⟩ =
      ⟨specPivotCoord 0 (-(1/2)) (1/2),
       -(specPivotCoord 1 0 1),
       -(specPivotCoord 0 (-(1/2)) (1/2))⟩ ∧
    (pivotPoint ⟨0, 1, 0⟩ ⟨-(1/2), 0, -(1/2)⟩ ⟨1/2, 1, 1/2⟩).y = 0 := by
  have h := pivot_offset_amended ⟨0, 1, 0⟩ ⟨-(1/2), 0, -(1/2)⟩ ⟨1/2, 1, 1/2⟩
  exact ⟨h.1, h.2.1 (by norm_num)⟩

/-- C2. Arming "Castle/wall.glb" resolves the asset path
"Assets/3D/Castle/wall.glb", and clicking the ground at (2.6, 0, 2.6)
with up-normal (0,1,0) and loaded bounds min (-0.5,0,-0.5),
max (0.5,1,0.5) places the root node at (3,0,3): pick point + pivot
offset + 0.1·normal, each coordinate rounded to the nearest integer. -/
theorem castle_wall_placement_scenario :
    modelFilePath "Castle" "wall.glb" = "Assets/3D/Castle/wall.glb" ∧
    finalPosition ⟨13/5, 0, 13/5⟩ ⟨0, 1, 0⟩ true
      ⟨-(1/2), 0, -(1/2)⟩ ⟨1/2, 1, 1/2⟩ = ⟨3, 0, 3⟩ := by
  refine ⟨rfl, ?_⟩
  simp only [finalPosition, rawFinalPosition, placementOffset, pivotPoint,
    pivotCoord, sideOffset, roundVec, Vec3.add, Vec3.neg, Vec3.scale,
    jround_eq_floor]
  norm_num

/-- C4. Every placement snaps the final position coordinatewise: the
Babylon pipeline's final position is exactly `snapToGrid` of its raw
final position, `Math.round` lands within 1/2 of its input on every
rational (nearest-integer rounding), and snapping (1.3, 0.2, -0.49)
yields (1, 0, 0). -/
theorem placement_grid_snap :
    (∀ position normal hasPick mn mx,
        finalPosition position normal hasPick mn mx =
          snapToGrid (rawFinalPosition position normal hasPick mn mx)) ∧
    (∀ q : ℚ, |q - (jround q : ℚ)| ≤ 1/2) ∧
    snapToGrid ⟨13/10, 1/5, -(49/100)⟩ = ⟨1, 0, 0⟩ := by
  refine ⟨fun _ _ _ _ _ => rfl, fun q => ?_,
    by simp only [snapToGrid, jround_eq_floor]; norm_num⟩
  have h1 : (⌊q + 1/2⌋ : ℚ) ≤ q + 1/2 := Int.floor_le _
  have h2 : q + 1/2 < ⌊q + 1/2⌋ + 1 := Int.lt_floor_add_one _
  rw [abs_le, jround_eq_floor]
  constructor <;> linarith

/-- C5. From `ObjectSelected(X)` (reached by selecting a mesh list with
distinct `uniqueId`s, at least one material, and no pre-existing
highlight), a primary click resolving to `X` again deselects it: the
state returns to Idle (`selectedObject = null`), every mesh surface of
`X` carries its pre-selection material again, and no mesh is left
wearing a highlight clone. -/
theorem reclick_deselects_and_restores (meshes : List MeshB)
    (hnodup : (meshes.map MeshB.uid).Nodup)
    (hpre : highlightFree meshes)
    (hsome : ∃ m ∈ meshes, m.material.isSome) :
    (selectX ⟨false, meshes, []⟩).selected = true ∧
    (handleHitOnX (selectX ⟨false, meshes, []⟩)).selected = false ∧
    (handleHitOnX (selectX ⟨false, meshes, []⟩)).meshes = meshes ∧
    highlightFree (handleHitOnX (selectX ⟨false, meshes, []⟩)).meshes := by
  obtain ⟨m, hm, hmat⟩ := hsome
  have hne : ¬ (collectOriginals meshes).isEmpty := by
    rcases Option.isSome_iff_exists.mp hmat with ⟨mat, hmmat⟩
    have : (m.uid, mat) ∈ collectOriginals meshes := by
      simp only [collectOriginals, List.mem_filterMap]
      exact ⟨m, hm, by simp [hmmat]⟩
    intro hemp
    rw [List.isEmpty_iff] at hemp
    simp [hemp] at this
  have hsel : selectX ⟨false, meshes, []⟩ =
      ⟨true, meshes.map applyHighlight, collectOriginals meshes⟩ := by
    simp [selectX, hne]
  have hrestore : (meshes.map applyHighlight).map
      (restoreMesh (collectOriginals meshes)) = meshes := by
    rw [List.map_map]
    calc meshes.map (restoreMesh (collectOriginals meshes) ∘ applyHighlight)
        = meshes.map id :=
          List.map_congr_left fun m hm => restore_applyHighlight hnodup hm
      _ = meshes := List.map_id meshes
  rw [hsel]
  have hstep : handleHitOnX ⟨true, meshes.map applyHighlight, collectOriginals meshes⟩ =
      ⟨false, meshes, []⟩ := by
    simp [handleHitOnX, clearX, hrestore]
  rw [hstep]
  exact ⟨rfl, rfl, rfl, hpre⟩

/-- C5, witness: a two-mesh object with wood and stone materials. -/
theorem reclick_deselects_and_restores_witness :
    (selectX ⟨false, [⟨1, some (.orig "wood")⟩, ⟨2, some (.orig "stone")⟩], []⟩).selected = true ∧
    (handleHitOnX (selectX ⟨false, [⟨1, some (.orig "wood")⟩, ⟨2, some (.orig "stone")⟩], []⟩)).selected = false ∧
    (handleHitOnX (selectX ⟨false, [⟨1, some (.orig "wood")⟩, ⟨2, some (.orig "stone")⟩], []⟩)).meshes =
      [⟨1, some (.orig "wood")⟩, ⟨2, some (.orig "stone")⟩] ∧
    highlightFree (handleHitOnX (selectX ⟨false, [⟨1, some (.orig "wood")⟩, ⟨2, some (.orig "stone")⟩], []⟩)).meshes :=
  reclick_deselects_and_restores
    [⟨1, some (.orig "wood")⟩, ⟨2, some (.orig "stone")⟩]
    (by decide) (by decide) (by decide)

/-- C6, counterexample. In the Babylon `AssetBrowser`, arming
"Castle/wall.glb" twice in a row from Idle leaves the file armed — the
second `selectFile` call does not disarm, contradicting the claimed
toggle. -/
theorem rearm_toggle_claim_false :
    (selectFileB (selectFileB ⟨none, none⟩ "Castle/wall.glb")
        "Castle/wall.glb").selectedFile ≠ none := by
  decide

/-- C6, amended. The two `selectFile` implementations disagree: the
`AssetLevelEditor` (part_000) treats re-arming the already-armed file as
a toggle back to Idle, while the Babylon `AssetBrowser` leaves the file
armed (re-arming is idempotent, clearing only the object selection). -/
theorem rearm_behavior_amended :
    (∀ filePath,
        (selectFileT (selectFileT ⟨none⟩ filePath) filePath).selectedFile = none) ∧
    (∀ s filePath, (selectFileB s filePath).selectedFile = some filePath ∧
        (selectFileB s filePath).selectedObject = none) := by
  refine ⟨fun filePath => ?_, fun s filePath => ⟨rfl, rfl⟩⟩
  simp [selectFileT]

/-- C7, counterexample. With an object (id 5) selected and no file armed,
a right click whose ray hits a placeable object (id 7, named "cube")
leaves that object selected: the part_000 handler re-selects the hit
object after clearing, so the state machine does not end with an empty
selection. -/
theorem secondary_click_clears_claim_false :
    (onRightClickT ⟨none, some 5⟩ [⟨7, "cube", []⟩]).selectedObject ≠ none := by
  decide

/-- C7, amended. A secondary click always clears the armed file, in both
editors; it clears the object selection too unless something was armed or
selected and the ray hits a non-helper object, in which case the part_000
handler selects that object's root after the clear. The Babylon
`clearSelection` run on right click does clear both unconditionally. -/
theorem secondary_click_amended :
    (∀ s intersects, (onRightClickT s intersects).selectedFile = none) ∧
    (∀ s, (onRightClickT s []).selectedObject = none) ∧
    (∀ intersects, (onRightClickT ⟨none, none⟩ intersects).selectedObject = none) ∧
    (∀ s o rest,
        (s.selectedObject.isSome || s.selectedFile.isSome) = true →
        ¬ (o.name = "ground" ∨ o.name = "grid" ∨ o.name = "axes") →
        (onRightClickT s (o :: rest)).selectedObject = some (rootIdOf o)) ∧
    (∀ s, (clearSelectionB s).selectedFile = none ∧
        (clearSelectionB s).selectedObject = none) := by
  have hfile : ∀ s o, (selectObjectT s o).selectedFile = s.selectedFile := by
    intro s o
    unfold selectObjectT
    split
    · rfl
    · split <;> rfl
  refine ⟨fun s intersects => ?_, fun s => rfl, fun intersects => ?_,
    fun s o rest hhad hname => ?_, fun s => ⟨rfl, rfl⟩⟩
  · cases intersects with
    | nil => rfl
    | cons o rest =>
        simp only [onRightClickT]
        cases h : s.selectedObject.isSome || s.selectedFile.isSome
        · simp
        · simp [hfile]
  · cases intersects with
    | nil => rfl
    | cons o rest => simp [onRightClickT]
  · simp only [onRightClickT, hhad, if_true]
    simp [selectObjectT, hname]

/-- C7, witness for the amended theorem: right click with an armed file
and no hit clears both; right click hitting a cube while a file is armed
selects the cube's root (id 7). -/
theorem secondary_click_amended_witness :
    (onRightClickT ⟨some "Castle/wall.glb", none⟩ []).selectedFile = none ∧
    (onRightClickT ⟨some "Castle/wall.glb", none⟩ []).selectedObject = none ∧
    (onRightClickT ⟨some "Castle/wall.glb", none⟩
        [⟨7, "cube", []⟩]).selectedObject = some 7 := by
  have h := secondary_click_amended
  exact ⟨h.1 ⟨some "Castle/wall.glb", none⟩ [],
    h.2.1 ⟨some "Castle/wall.glb", none⟩,
    h.2.2.2.1 ⟨some "Castle/wall.glb", none⟩ ⟨7, "cube", []⟩ []
      (by decide) (by decide)⟩

/-- C3, counterexample. The claim requires round-tripped transforms to
match within 1e-5 "for both quaternion-bearing and Euler-bearing
documents", but `loadScene` never reads `rotationQuaternion`: loading the
quaternion-bearing document `quatDoc` (half-turn about z, quaternion
(0,0,1,0)) yields an instance whose Euler rotation is the untouched
default (0,0,0) — the identity, whose quaternion (0,0,0,1) keeps (1,0,0)
fixed — while the document's orientation sends (1,0,0) to (-1,0,0); the
reconstructed orientation is off by 2 on a unit vector, far outside the
1e-5 tolerance. -/
theorem roundtrip_quaternion_claim_false :
    (loadSceneB (fun _ => true) (fun _ => ⟨⟨0, 0, 0⟩, ⟨1, 1, 1⟩⟩) quatDoc).map
        PlacedModel.rotation = [⟨0, 0, 0⟩] ∧
    quatRotate (0, 0, 1, 0) ⟨1, 0, 0⟩ = ⟨-1, 0, 0⟩ ∧
    quatRotate (0, 0, 0, 1) ⟨1, 0, 0⟩ = ⟨1, 0, 0⟩ ∧
    ¬ (|(-1 : ℚ) - 1| ≤ 1 / 100000) := by
  refine ⟨?_, by norm_num [quatRotate, Vec3.cross, Vec3.add, Vec3.scale],
    by norm_num [quatRotate, Vec3.cross, Vec3.add, Vec3.scale], by norm_num⟩
  simp [loadSceneB, quatDoc, loadStepB, applyToLast, applySavedTransforms]

/-- C3, amended. For every registry of tracked models with canonical
`Assets/3D/folder/file` paths whose assets resolve, deserializing the
serialized document reproduces the registry exactly — same count, same
source paths, and position, rotation and scale applied verbatim (hence
within any tolerance), with no grid-snap re-application. This holds for
the Euler/array documents the serializer produces; quaternion-bearing
documents are not supported by this loader (see the counterexample). -/
theorem scene_roundtrip_amended (loads : List String → Bool)
    (bounds : List String → Box) (reg : List PlacedModel)
    (hcanon : ∀ m ∈ reg, ∃ g f, g ≠ "" ∧ f ≠ "" ∧ m.path = ["Assets", "3D", g, f])
    (hload : ∀ m ∈ reg, loads m.path = true) :
    loadSceneB loads bounds (serializeB reg) = reg ∧
    (loadSceneB loads bounds (serializeB reg)).length = reg.length ∧
    (loadSceneB loads bounds (serializeB reg)).map PlacedModel.path =
      reg.map PlacedModel.path := by
  have h : loadSceneB loads bounds (serializeB reg) = reg := by
    have h0 := foldl_loadStepB_serializeB loads bounds reg hcanon hload []
    simpa [loadSceneB] using h0
  exact ⟨h, by rw [h], by rw [h]⟩

/-- C3, witness: a one-model registry (a rotated, scaled wall) survives
the save/load round trip unchanged. -/
theorem scene_roundtrip_amended_witness :
    loadSceneB (fun _ => true) (fun _ => ⟨⟨0, 0, 0⟩, ⟨1, 1, 1⟩⟩)
      (serializeB [⟨["Assets", "3D", "Castle", "wall.glb"], ⟨1, 2, 3⟩, ⟨0, 1/2, 0⟩, ⟨2, 2, 2⟩⟩]) =
      [⟨["Assets", "3D", "Castle", "wall.glb"], ⟨1, 2, 3⟩, ⟨0, 1/2, 0⟩, ⟨2, 2, 2⟩⟩] := by
  refine (scene_roundtrip_amended (fun _ => true) (fun _ => ⟨⟨0, 0, 0⟩, ⟨1, 1, 1⟩⟩)
    [⟨["Assets", "3D", "Castle", "wall.glb"], ⟨1, 2, 3⟩, ⟨0, 1/2, 0⟩, ⟨2, 2, 2⟩⟩]
    ?_ ?_).1
  · intro m hm
    rcases List.mem_singleton.mp hm with rfl
    exact ⟨"Castle", "wall.glb", by decide, by decide, rfl⟩
  · intro m hm
    rfl

/-- C8, counterexample. For the 3-object document whose second asset path
does not resolve, the load's end-of-batch report is
`loadedModels.filter(m => m !== null).length`, which counts the fallback
placeholder as loaded: it reports 3, not the claimed "2 succeeded and 1
failed" (no failure count is reported at all). -/
theorem batch_failure_report_claim_false :
    reportedLoadedCountT failDocLoads failDoc ≠ 2 := by
  decide

/-- C8, amended. In the 3-object scenario the second entry's failure does
not block the others: entries 1 and 3 load normally, entry 2 becomes a
fallback placeholder at its saved position (4,5,6), and the batch report
counts 3 loaded objects (placeholders included) rather than 2
succeeded / 1 failed. Independence holds structurally: each entry's
outcome is a function of that entry alone, so replacing entry 2 never
changes the results of entries 1 and 3. -/
theorem batch_load_failure_amended :
    loadSceneT failDocLoads failDoc = [some failR1, some failR2, some failR3] ∧
    failR2.isPlaceholder = true ∧ failR2.position = ⟨4, 5, 6⟩ ∧
    failR1.isPlaceholder = false ∧ failR3.isPlaceholder = false ∧
    reportedLoadedCountT failDocLoads failDoc = 3 ∧
    (∀ loads ver e1 e2 e2x e3,
        (loadSceneT loads ⟨ver, [e1, e2, e3]⟩).head? =
          (loadSceneT loads ⟨ver, [e1, e2x, e3]⟩).head? ∧
        (loadSceneT loads ⟨ver, [e1, e2, e3]⟩).getLast? =
          (loadSceneT loads ⟨ver, [e1, e2x, e3]⟩).getLast?) := by
  refine ⟨by decide, rfl, rfl, rfl, rfl, by decide, ?_⟩
  intro loads ver e1 e2 e2x e3
  constructor <;> simp [loadSceneT, isNewFormatT]

/-- C9. A document with version "1.0" — or with no version field — is
treated as the legacy format and accepted without throwing: its one
object with array-form position [1,2,3] and no properties field yields a
placed instance whose position is exactly (1,2,3) and whose effective
property mapping is empty. -/
theorem legacy_format_load_scenario :
    isNewFormatT ⟨some "1.0", [legacyEntry]⟩ = false ∧
    isNewFormatT ⟨none, [legacyEntry]⟩ = false ∧
    loadSceneT (fun p => p == "Assets/3D/Castle/wall.glb") ⟨some "1.0", [legacyEntry]⟩ =
      [some legacyExpected] ∧
    loadSceneT (fun p => p == "Assets/3D/Castle/wall.glb") ⟨none, [legacyEntry]⟩ =
      [some legacyExpected] ∧
    legacyExpected.position = ⟨1, 2, 3⟩ ∧
    effectiveProps legacyExpected = [] := by
  exact ⟨by decide, rfl, by decide, by decide, rfl, rfl⟩

/-- C10. The bounding box folded from the leaf meshes' boxes encloses
them all: its minimum is ≤ every leaf box's minimum and its maximum is ≥
every leaf box's maximum on every axis; and when every leaf box is
well-formed (min ≤ max), so is the union, hence every leaf box is
contained in it. -/
theorem bounding_box_union_encloses (b0 : Box) (rest : List Box) :
    (∀ b ∈ b0 :: rest,
        (unionBounds b0 rest).mn.cle b.mn ∧ b.mx.cle (unionBounds b0 rest).mx) ∧
    ((∀ b ∈ b0 :: rest, b.mn.cle b.mx) →
        (unionBounds b0 rest).mn.cle (unionBounds b0 rest).mx) := by
  refine ⟨fun b hb =>
    ⟨unionBounds_mn_cle b0 rest b hb, cle_unionBounds_mx b0 rest b hb⟩,
    fun hwf => ?_⟩
  have h0 := List.mem_cons_self b0 rest
  exact Vec3.cle_trans (unionBounds_mn_cle b0 rest b0 h0)
    (Vec3.cle_trans (hwf b0 h0) (cle_unionBounds_mx b0 rest b0 h0))

/-- C10, witness: two leaf boxes, one reaching below and one above the
other. -/
theorem bounding_box_union_encloses_witness :
    ((unionBounds ⟨⟨0, 0, 0⟩, ⟨1, 1, 1⟩⟩ [⟨⟨-1, 0, 0⟩, ⟨0, 2, 1⟩⟩]).mn.cle ⟨-1, 0, 0⟩ ∧
      Vec3.cle ⟨0, 2, 1⟩ (unionBounds ⟨⟨0, 0, 0⟩, ⟨1, 1, 1⟩⟩ [⟨⟨-1, 0, 0⟩, ⟨0, 2, 1⟩⟩]).mx) ∧
    (unionBounds ⟨⟨0, 0, 0⟩, ⟨1, 1, 1⟩⟩ [⟨⟨-1, 0, 0⟩, ⟨0, 2, 1⟩⟩]).mn.cle
      (unionBounds ⟨⟨0, 0, 0⟩, ⟨1, 1, 1⟩⟩ [⟨⟨-1, 0, 0⟩, ⟨0, 2, 1⟩⟩]).mx := by
  have h := bounding_box_union_encloses ⟨⟨0, 0, 0⟩, ⟨1, 1, 1⟩⟩ [⟨⟨-1, 0, 0⟩, ⟨0, 2, 1⟩⟩]
  exact ⟨h.1 ⟨⟨-1, 0, 0⟩, ⟨0, 2, 1⟩⟩ (by decide), h.2 (by decide)⟩
